import Mathlib

/-!
Paper2Beamer — verification of the generate → compile → repair core.

A shallow embedding, in Lean, of the core workflow of the Paper2Beamer
repository and proofs about it:

* `modules/tex_workflow.py` — `TexWorkflow.process`, `TexWorkflow._preprocess_images`,
  `run_tex_workflow`, `run_revision_tex_workflow`;
* `modules/tex_validator.py` — `TexValidator.validate`,
  `TexValidator._process_image_references`, `TexValidator._extract_error_message`;
* `modules/tex_generator.py` — `TexGenerator.generate_tex`, `TexGenerator._clean_tex_code`;
* `modules/interactive_reviser.py` — `EditorAgent.revise` and its helpers.

External effects (the LLM calls, the `xelatex`/`pdflatex` subprocess, the real
file system) are modelled as explicit environment records supplying their
observable outcomes; the Python control flow over those outcomes is translated
function by function.  Python strings are modelled as `String`/`List Char`, and
the handful of `re` patterns used by the source are translated into explicit
scanners with the same matching semantics on the inputs the code feeds them.
-/

namespace PaperToBeamer

/-! Character-list string machinery.

Python string operations used by the source (`in`, `str.replace`,
`os.path.basename`, `os.path.splitext`, `re` searches) are modelled over
`List Char`. -/

abbrev Chars := List Char

/-- Python substring test `pat in s`. -/
def occursL (pat : Chars) : Chars → Bool
  | [] => pat.isEmpty
  | c :: rest => pat.isPrefixOf (c :: rest) || occursL pat rest

/-- Index of the first occurrence of `pat` in `l`, if any. -/
def findSubIdx (pat : Chars) : Chars → Option Nat
  | [] => if pat.isEmpty then some 0 else none
  | c :: rest =>
    if pat.isPrefixOf (c :: rest) then some 0
    else (findSubIdx pat rest).map (· + 1)

/-- Fuel-indexed core of Python `s.replace(pat, rep)`: replace all
non-overlapping occurrences, scanning left to right.  Each step consumes at
least one character, so any `fuel ≥ s.length` computes the full replacement. -/
def replaceAllAux (pat rep : Chars) : Nat → Chars → Chars
  | 0, s => s
  | fuel + 1, s =>
    match s with
    | [] => []
    | c :: rest =>
      if !pat.isEmpty && pat.isPrefixOf (c :: rest) then
        rep ++ replaceAllAux pat rep fuel (rest.drop (pat.length - 1))
      else
        c :: replaceAllAux pat rep fuel rest

/-- Python `s.replace(pat, rep)`.  (With an empty `pat` this returns `s`
unchanged; the source only ever replaces non-empty literals.) -/
def replaceAllL (pat rep s : Chars) : Chars := replaceAllAux pat rep s.length s

/-- Substring test on `String`s (`pat in s` in Python). -/
def pyContains (s pat : String) : Bool := occursL pat.toList s.toList

/-- Python `s.replace(old, new)` on `String`s. -/
def pyReplace (s old new : String) : String := ⟨replaceAllL old.toList new.toList s.toList⟩

/-- Python `os.path.basename`: everything after the last `/`. -/
def basenameL (p : Chars) : Chars := (p.reverse.takeWhile (fun c => c != '/')).reverse

/-- Python `os.path.basename` on `String`s. -/
def basename (p : String) : String := ⟨basenameL p.toList⟩

/-- The stem of `os.path.splitext`: everything before the last dot, the whole
name when there is no dot.  (The leading-dot special case of `os.path.splitext`
is not modelled; the source only splits names of the form `<stem>.tex`.) -/
def splitextStemL (p : Chars) : Chars :=
  if p.contains '.' then ((p.reverse.dropWhile (fun c => c != '.')).drop 1).reverse else p

/-- Stem of `os.path.splitext` on `String`s. -/
def splitextStem (p : String) : String := ⟨splitextStemL p.toList⟩

/-- The apostrophe character (used inside some of the literal patterns of the
source). -/
def apos : Char := Char.ofNat 39

/-- The backquote character (used inside `! I can't find file \x60...'`). -/
def backquote : Char := Char.ofNat 96

/-- Python `\s` on the whitespace characters the source can meet. -/
def isPySpace (c : Char) : Bool :=
  c = ' ' || c = '\t' || c = '\n' || c = '\r' || c = '\x0b' || c = '\x0c'

/-! Embedding of `TexValidator._extract_error_message` (tex_validator.py, lines 380-418).

The source tests an ordered list of `re` patterns against the raw compiler
log (`re.findall`, taking the first match).  None of the patterns can match
across a newline except through an explicit `\n` in the pattern, so each is
translated into a scanner with the same first-match semantics. -/

/-- First match of `pre(.*?)stop`: first occurrence of the literal `pre`,
captured text up to the first `stop` character after it, which must exist. -/
def captureAfterUntil (pre : Chars) (stop : Char) (l : Chars) : Option Chars :=
  match findSubIdx pre l with
  | none => none
  | some i =>
    let rest := l.drop (i + pre.length)
    let cap := rest.takeWhile (fun c => c != stop)
    if cap.length < rest.length then some cap else none

/-- First match of `pre([^\n]*)`: first occurrence of the literal `pre`,
captured text up to the end of that line (no trailing newline required). -/
def captureAfterLine (pre : Chars) (l : Chars) : Option Chars :=
  (findSubIdx pre l).map (fun i => (l.drop (i + pre.length)).takeWhile (fun c => c != '\n'))

/-- First match of `pre(.*?)sep`: at each occurrence of `pre`, the lazy group
may not span a newline, so the pattern matches iff `sep` occurs within the rest
of that line; otherwise scanning resumes one character further. -/
def findLazySep (pre sep : Chars) : Chars → Option Chars
  | [] => none
  | c :: rest =>
    match (if pre.isPrefixOf (c :: rest) then
             let span := ((c :: rest).drop pre.length).takeWhile (fun ch => ch != '\n')
             (findSubIdx sep span).map (fun j => span.take j)
           else none) with
    | some g => some g
    | none => findLazySep pre sep rest

/-- First match of `! Package (.*?) Error: (.*?)\n`: both lazy groups exclude
newlines and the match needs a terminating newline after the second group. -/
def findPackageError (l : Chars) : Option (Chars × Chars) :=
  match l with
  | [] => none
  | c :: rest =>
    match (if ("! Package ".toList).isPrefixOf (c :: rest) then
             let after := (c :: rest).drop 10
             let span := after.takeWhile (fun ch => ch != '\n')
             match findSubIdx (" Error: ".toList) span with
             | some j =>
               let rest2 := after.drop (j + 8)
               let g2 := rest2.takeWhile (fun ch => ch != '\n')
               if g2.length < rest2.length then some (span.take j, g2) else none
             | none => none
           else none) with
    | some g => some g
    | none => findPackageError rest

/-- Source `TexValidator._extract_error_message`: try the ordered error patterns and
return the first match, formatted as in the source; fall back to the first
`LaTeX Warning:` line; return `""` when nothing matches. -/
def extractErrorMessage (logOutput : String) : String :=
  let l := logOutput.toList
  match captureAfterUntil ("! LaTeX Error: ".toList) '\n' l with
  | some m => ⟨m⟩
  | none =>
  match findPackageError l with
  | some (g1, g2) => String.mk g1 ++ " Error: " ++ String.mk g2
  | none =>
  match captureAfterLine ("! Undefined control sequence.\n\\".toList) l with
  | some m => ⟨m⟩
  | none =>
  match findLazySep ("! Missing ".toList) (" inserted.".toList) l with
  | some m => ⟨m⟩
  | none =>
  match captureAfterUntil ("! Package tikz Error: ".toList) '\n' l with
  | some m => ⟨m⟩
  | none =>
  match findLazySep ("! I can".toList ++ [apos] ++ "t find file ".toList ++ [backquote]) [apos] l with
  | some m => ⟨m⟩
  | none =>
  match captureAfterUntil ("LaTeX Warning: ".toList) '\n' l with
  | some w => "警告: " ++ String.mk w
  | none => ""

/-! Embedding of `TexGenerator._clean_tex_code` (tex_generator.py, lines 196-209).

Strips code-fence wrapping: `re.findall(r"\x60\x60\x60(?:latex|tex)?(.*?)\x60\x60\x60", s, re.DOTALL)`
joined with newlines when it matches; otherwise a leading fence line and a
trailing fence are stripped; the result is `.strip()`-ed. -/

/-- Three backquotes. -/
def fence : Chars := [backquote, backquote, backquote]

/-- Skip the optional `latex` / `tex` tag right after an opening fence
(`(?:latex|tex)?` tries `latex`, then `tex`, then the empty alternative). -/
def skipFenceTag (l : Chars) : Chars :=
  if ("latex".toList).isPrefixOf l then l.drop 5
  else if ("tex".toList).isPrefixOf l then l.drop 3
  else l

/-- All matches of the fenced-block pattern (lazy group, `re.DOTALL`). -/
def fenceBlocks (fuel : Nat) (l : Chars) : List Chars :=
  match fuel with
  | 0 => []
  | fuel + 1 =>
    match findSubIdx fence l with
    | none => []
    | some i =>
      let inner := skipFenceTag (l.drop (i + 3))
      match findSubIdx fence inner with
      | none => []
      | some j => inner.take j :: fenceBlocks fuel (inner.drop (j + 3))

/-- Python `"\n".join`. -/
def joinNL : List Chars → Chars
  | [] => []
  | [x] => x
  | x :: y :: rest => x ++ '\n' :: joinNL (y :: rest)

/-- Python `re.sub` of a leading fence pattern: strip one leading fence
line at the very start of the string. -/
def stripLeadingFence (l : Chars) : Chars :=
  if ([backquote, backquote, backquote] ++ "latex\n".toList).isPrefixOf l then l.drop 9
  else if ([backquote, backquote, backquote] ++ "tex\n".toList).isPrefixOf l then l.drop 7
  else if ([backquote, backquote, backquote] ++ ['\n']).isPrefixOf l then l.drop 4
  else l

/-- Python `re.sub` of a trailing fence pattern: strip a trailing newline-plus-fence
(also when followed by one final newline, which `$` permits). -/
def stripTrailingFence (l : Chars) : Chars :=
  if ('\n' :: fence).isSuffixOf l then l.take (l.length - 4)
  else if ('\n' :: fence ++ ['\n']).isSuffixOf l then l.take (l.length - 5) ++ ['\n']
  else l

/-- Python `str.strip()` on the whitespace the source can meet. -/
def pyStrip (l : Chars) : Chars :=
  ((l.dropWhile isPySpace).reverse.dropWhile isPySpace).reverse

/-- Source `TexGenerator._clean_tex_code`. -/
def cleanTexCode (s : String) : String :=
  let l := s.toList
  if occursL fence l then
    let ms := fenceBlocks l.length l
    if !ms.isEmpty then ⟨pyStrip (joinNL ms)⟩
    else ⟨pyStrip (stripTrailingFence (stripLeadingFence l))⟩
  else ⟨pyStrip l⟩

/-! Embedding of the `EditorAgent` helpers (interactive_reviser.py, lines 62-86). -/

/-- Lower-case an ASCII letter (for the `re.IGNORECASE` match of `page`). -/
def toLowerAscii (c : Char) : Char :=
  if 'A' ≤ c && c ≤ 'Z' then Char.ofNat (c.toNat + 32) else c

/-- Match the keyword alternative `(?:第|page)` (case-insensitive) at the head
of `l`; return the remaining characters on success. -/
def matchPageKeyword (l : Chars) : Option Chars :=
  match l with
  | [] => none
  | c :: rest =>
    if c = '第' then some rest
    else if ("page".toList).isPrefixOf ((c :: rest).take 4 |>.map toLowerAscii) then
      some (rest.drop 3)
    else none

/-- Digits to a number (`int` of the captured group). -/
def digitsToNat (l : Chars) : Nat := l.foldl (fun a c => 10 * a + (c.toNat - 48)) 0

/-- Source `EditorAgent._find_target_page_number`: first match of
`(?:第|page)\s*(\d+)` (ignore-case); `none` models the sentinel `-1`. -/
def findTargetPageNumber : Chars → Option Nat
  | [] => none
  | c :: rest =>
    match matchPageKeyword (c :: rest) with
    | some after =>
      let digits := (after.dropWhile isPySpace).takeWhile Char.isDigit
      if digits.isEmpty then findTargetPageNumber rest else some (digitsToNat digits)
    | none => findTargetPageNumber rest

/-- Literal `\begin{frame}`. -/
def beginFrame : Chars := "\\begin".toList ++ '\x7b' :: "frame".toList ++ ['\x7d']

/-- Literal `\end{frame}`. -/
def endFrame : Chars := "\\end".toList ++ '\x7b' :: "frame".toList ++ ['\x7d']

/-- All matches of `(\begin{frame}.*?\end{frame})` under `re.DOTALL`
(non-overlapping, lazy bodies), delimiters included. -/
def extractFrames (fuel : Nat) (l : Chars) : List Chars :=
  match fuel with
  | 0 => []
  | fuel + 1 =>
    match findSubIdx beginFrame l with
    | none => []
    | some i =>
      let afterBegin := l.drop (i + beginFrame.length)
      match findSubIdx endFrame afterBegin with
      | none => []
      | some j =>
        (beginFrame ++ afterBegin.take j ++ endFrame)
          :: extractFrames fuel (afterBegin.drop (j + endFrame.length))

/-- Source `EditorAgent._find_frame_for_slide`: the first frame block whose
text contains the exact string `\frametitle{<slide_title>}`. -/
def findFrameForSlide (texContent slideTitle : String) : Option String :=
  let frames := extractFrames texContent.length texContent.toList
  let search := "\\frametitle".toList ++ '\x7b' :: slideTitle.toList ++ ['\x7d']
  (frames.find? (fun f => occursL search f)).map (fun f => String.mk f)

/-! Embedding of the `\includegraphics` scan of
`TexValidator._process_image_references` (tex_validator.py, line 211):
`re.findall(r"\\includegraphics\[.*?\]\{([^}]+)\}", tex_content)`. -/

/-- Literal `\includegraphics[`. -/
def igLiteral : Chars := "\\includegraphics[".toList

/-- All captured arguments of the `\includegraphics` pattern, in order.  The
lazy option group cannot span a newline; the argument group `[^}]+` is
non-empty and stops at the first closing brace. -/
def scanIncludeArgs (fuel : Nat) (l : Chars) : List Chars :=
  match fuel, l with
  | 0, _ => []
  | _, [] => []
  | fuel + 1, c :: rest =>
    if igLiteral.isPrefixOf (c :: rest) then
      let afterB := (c :: rest).drop igLiteral.length
      let opts := afterB.takeWhile (fun ch => ch != ']' && ch != '\n')
      match afterB.drop opts.length with
      | ']' :: '\x7b' :: rest2 =>
        let arg := rest2.takeWhile (fun ch => ch != '\x7d')
        match rest2.drop arg.length, arg with
        | '\x7d' :: rest4, _ :: _ => arg :: scanIncludeArgs fuel rest4
        | _, _ => scanIncludeArgs fuel rest
      | _ => scanIncludeArgs fuel rest
    else scanIncludeArgs fuel rest

/-! Embedding of `TexValidator.validate` and
`TexValidator._process_image_references` (tex_validator.py, lines 75-316).

The compiler subprocess, the temporary working directory and the surrounding
file system are abstracted into a `ValidateEnv` record carrying their
observable outcomes for one `validate` call; the trace records the returned
triple, how many times the compiler subprocess was invoked, the content
written back to the original source file, and the file names copied to the
persistent output directory. -/

/-- Observable environment of one `TexValidator.validate` call. -/
structure ValidateEnv where
  /-- `os.path.exists(tex_file)` at entry. -/
  texExists : Bool
  /-- Content of the source file when `_process_image_references` reads it. -/
  texContent : String
  /-- File names (basenames) initially present in the temporary `images`
  directory (copied from `<tex_dir>/images`). -/
  tempImages : List String
  /-- Basenames available in some directory of `possible_image_dirs`. -/
  sourceDirImages : List String
  /-- Literal paths that exist on disk (the `os.path.exists(full_path)`
  fallback). -/
  absFiles : List String
  /-- The compiler subprocess exceeded its timeout. -/
  timedOut : Bool
  /-- Exit code of the compiler subprocess. -/
  returncode : Nat
  /-- The compiled PDF is present in the working directory afterwards. -/
  pdfGenerated : Bool
  /-- The raw `.log` file is present in the working directory afterwards. -/
  logGenerated : Bool
  /-- Decoded standard output of the compiler subprocess. -/
  stdout : String

/-- The per-argument classification fold of `_process_image_references`:
thread the set of basenames present in the temporary `images` directory and
accumulate the missing image paths, in source order. -/
def classifyArgs (srcDirs absFiles : List String) :
    List Chars → List String → List Chars → List String × List Chars
  | [], temp, acc => (temp, acc.reverse)
  | p :: ps, temp, acc =>
    let name : String := ⟨basenameL p⟩
    if ("images/".toList).isPrefixOf p && temp.contains name then
      classifyArgs srcDirs absFiles ps temp acc
    else if srcDirs.contains name then
      classifyArgs srcDirs absFiles ps (name :: temp) acc
    else if absFiles.contains ⟨p⟩ then
      classifyArgs srcDirs absFiles ps (name :: temp) acc
    else
      classifyArgs srcDirs absFiles ps temp (p :: acc)

/-- The rewriting step of `_process_image_references`: with missing images,
replace exactly the missing braced arguments by placeholder paths; with none
missing, replace every argument not already under `images/` by
`images/<basename>`. -/
def rewriteContent (content : Chars) (args missing : List Chars) : Chars :=
  if !missing.isEmpty then
    missing.foldl (fun acc p =>
      replaceAllL ('\x7b' :: p ++ ['\x7d'])
        ('\x7b' :: ("images/placeholder_".toList ++ basenameL p ++ ".png".toList) ++ ['\x7d'])
        acc) content
  else
    args.foldl (fun acc p =>
      if ("images/".toList).isPrefixOf p then acc
      else
        replaceAllL ('\x7b' :: p ++ ['\x7d'])
          ('\x7b' :: ("images/".toList ++ basenameL p) ++ ['\x7d'])
          acc) content

/-- Source `TexValidator._process_image_references`: the content written back
to the original source file. -/
def processImageReferences (env : ValidateEnv) : String :=
  let content := env.texContent.toList
  let args := scanIncludeArgs content.length content
  let missing := (classifyArgs env.sourceDirImages env.absFiles args env.tempImages []).2
  ⟨rewriteContent content args missing⟩

/-- Trace of one `TexValidator.validate` call. -/
structure ValidateTrace where
  /-- The returned `(success, message, pdf_path)` triple. -/
  result : Bool × String × Option String
  /-- Number of compiler subprocess invocations. -/
  compilerCalls : Nat
  /-- Content written back to the original source file, when reached. -/
  sourceWrite : Option String
  /-- File names copied into the persistent output directory (the compiled
  PDF and the raw log; the `images` copies are kept abstract). -/
  outputCopies : List String

/-- Source `TexValidator.validate` (default `timeout=60`). -/
def validate (outputDir texFile : String) (env : ValidateEnv) : ValidateTrace :=
  if !env.texExists then
    ⟨(false, "TEX文件不存在: " ++ texFile, none), 0, none, []⟩
  else
    let written := processImageReferences env
    let texBase := basename texFile
    let pdfBase := splitextStem texBase ++ ".pdf"
    let logBase := splitextStem texBase ++ ".log"
    if env.timedOut then
      ⟨(false, "编译超时（超过60秒）", none), 1, some written, []⟩
    else if env.returncode = 0 then
      if env.pdfGenerated then
        ⟨(true, "编译成功", some (outputDir ++ "/" ++ pdfBase)), 1, some written,
          pdfBase :: (if env.logGenerated then [logBase] else [])⟩
      else
        ⟨(false, "编译命令成功执行，但未生成PDF文件", none), 1, some written, []⟩
    else
      let em := extractErrorMessage env.stdout
      let em := if em = "" then "未知编译错误，请查看完整日志" else em
      ⟨(false, em, none), 1, some written, if env.logGenerated then [logBase] else []⟩

/-! Embedding of `TexGenerator.generate_tex` (tex_generator.py, lines 110-157).

The generator returns the code-fence-cleaned LLM output, and the empty string
on each of its failure paths (no plan, no model, exception during the call);
there is no structural check of the cleaned output. -/

/-- Observable environment of one `TexGenerator.generate_tex` call. -/
structure GenEnv where
  /-- The generator loaded a non-empty presentation plan. -/
  planLoaded : Bool
  /-- `self.llm` was initialised (OpenAI available and an API key present). -/
  llmAvailable : Bool
  /-- Raw LLM response content; `none` models an exception during the call. -/
  llmOutput : Option String

/-- Source `TexGenerator.generate_tex`. -/
def generateTex (g : GenEnv) : String :=
  if !g.planLoaded then ""
  else if !g.llmAvailable then ""
  else
    match g.llmOutput with
    | none => ""
    | some out => cleanTexCode out

/-! Embedding of `TexWorkflow._preprocess_images` (tex_workflow.py, lines
190-302): slide records, an abstract file system, and the per-slide
resolution step. -/

/-- The `figure_reference` entry of a slide (only its `path` key is read). -/
structure FigureRef where
  /-- The `path` value (`""` models a missing or empty `path` key). -/
  path : String
  deriving Repr, DecidableEq

/-- One entry of the plan's `slides_plan` list, as read by
`_preprocess_images`. -/
structure Slide where
  /-- The `includes_figure` flag. -/
  includes_figure : Bool
  /-- The `figure_reference` value; `none` models a missing, `None` or empty
  dict (all falsy). -/
  figure_reference : Option FigureRef
  deriving Repr, DecidableEq

/-- An abstract file system: the files and directories that exist. -/
structure FileSys where
  /-- Paths of existing regular files. -/
  files : List String
  /-- Paths of existing directories. -/
  dirs : List String
  deriving Repr, DecidableEq

/-- The images directory `output/images/<session_id>` used by
`_preprocess_images`. -/
def imagesDirOf (sessionId : String) : String := "output/images/" ++ sessionId

/-- Resolution of one slide by `_preprocess_images`: look the basename up in
the session images directory, rewrite the path on a hit, otherwise create a
placeholder image there (dropping the figure if even that fails, as the
`except` branch does).  `saveOk` tells whether `image.save` succeeds for a
given placeholder path. -/
def resolveSlide (sessionId : String) (saveOk : String → Bool) (slide : Slide)
    (fs : FileSys) : Slide × FileSys :=
  if !slide.includes_figure then (slide, fs)
  else
    match slide.figure_reference with
    | none => (slide, fs)
    | some fr =>
      if fr.path = "" then (slide, fs)
      else
        let imagesDir := imagesDirOf sessionId
        let dirExists := fs.dirs.contains imagesDir
        let filename := basename fr.path
        if dirExists && filename = "" then (slide, fs)
        else if dirExists && fs.files.contains (imagesDir ++ "/" ++ filename) then
          ({ slide with figure_reference := some { fr with path := "images/" ++ filename } }, fs)
        else
          let phName := "placeholder_" ++ basename fr.path ++ ".png"
          let phPath := imagesDir ++ "/" ++ phName
          if saveOk phPath then
            ({ slide with figure_reference := some { fr with path := "images/" ++ phName } },
             { files := phPath :: fs.files, dirs := imagesDir :: fs.dirs })
          else
            ({ slide with includes_figure := false, figure_reference := none },
             { fs with dirs := imagesDir :: fs.dirs })

/-- Source `TexWorkflow._preprocess_images` over the whole `slides_plan`
list, threading the file system. -/
def preprocessImages (sessionId : String) (saveOk : String → Bool) :
    List Slide → FileSys → List Slide × FileSys
  | [], fs => ([], fs)
  | s :: ss, fs =>
    let r := resolveSlide sessionId saveOk s fs
    let rs := preprocessImages sessionId saveOk ss r.2
    (r.1 :: rs.1, rs.2)

/-! Embedding of `TexWorkflow.process` (tex_workflow.py, lines 96-179).

The loop `for attempt in range(1, max_retries + 1)` validates once per
iteration, breaks on success, and repairs (`fix_tex_code` + rewrite of
`output.tex`) on failure for every attempt but the last.  What each validate
call returns is supplied by the environment, indexed by the attempt number. -/

/-- Observable environment of one `TexWorkflow.process` run. -/
structure WorkflowEnv where
  /-- Result of `_load_presentation_plan`; `none` models the falsy `{}`. -/
  planLoad : Option (List Slide)
  /-- The session id `os.path.basename(os.path.dirname(plan_path))`. -/
  sessionId : String
  /-- Whether `image.save` succeeds for a given placeholder path. -/
  saveOk : String → Bool
  /-- The file system seen by `_preprocess_images`. -/
  fs : FileSys
  /-- Environment of the single `generate_tex` call. -/
  genEnv : GenEnv
  /-- The `(success, message, pdf_path)` triple returned by the validate call
  of attempt `n`. -/
  validateRes : Nat → Bool × String × Option String

/-- Outcome of the validate/repair loop. -/
structure LoopOut where
  /-- Number of `TexValidator.validate` calls issued. -/
  vCalls : Nat
  /-- Number of `fix_tex_code` repair calls issued. -/
  fCalls : Nat
  /-- The loop exited through a successful validation. -/
  success : Bool
  /-- The PDF path of the successful validation. -/
  pdf : Option String
  /-- The `error_message` variable after the loop. -/
  lastErr : String

/-- The retry loop of `TexWorkflow.process`, with `remaining` iterations left
and the 1-based index of the current attempt (`remaining = 0` models the empty
`range`; a failing attempt with further iterations left repairs first). -/
def attemptLoop (validateRes : Nat → Bool × String × Option String) :
    Nat → Nat → String → LoopOut
  | 0, _, lastErr => ⟨0, 0, false, none, lastErr⟩
  | remaining + 1, attempt, lastErr =>
    match validateRes attempt with
    | (true, _, pdf) => ⟨1, 0, true, pdf, lastErr⟩
    | (false, msg, _) =>
      if remaining = 0 then ⟨1, 0, false, none, msg⟩
      else
        let rest := attemptLoop validateRes remaining (attempt + 1) msg
        ⟨rest.vCalls + 1, rest.fCalls + 1, rest.success, rest.pdf, rest.lastErr⟩

/-- Trace of one `TexWorkflow.process` run. -/
structure ProcessTrace where
  /-- The returned `(success, message, pdf_path)` triple. -/
  result : Bool × String × Option String
  /-- Number of `_preprocess_images` executions. -/
  preprocessCalls : Nat
  /-- Number of `generate_tex` executions. -/
  generateCalls : Nat
  /-- Number of `TexValidator.validate` calls. -/
  validateCalls : Nat
  /-- Number of `fix_tex_code` repair calls. -/
  fixCalls : Nat
  /-- `output.tex` was written under the output directory (and is never
  deleted afterwards). -/
  outputTexWritten : Bool

/-- Source `TexWorkflow.process`. -/
def process (env : WorkflowEnv) (maxRetries : Nat) : ProcessTrace :=
  match env.planLoad with
  | none => ⟨(false, "无法加载演示计划", none), 0, 0, 0, 0, false⟩
  | some slides =>
    let _resolved := preprocessImages env.sessionId env.saveOk slides env.fs
    let texCode := generateTex env.genEnv
    if texCode = "" then ⟨(false, "TEX代码生成失败", none), 1, 1, 0, 0, false⟩
    else
      let lo := attemptLoop env.validateRes maxRetries 1 ""
      if lo.success then
        ⟨(true, "TEX生成和编译成功", lo.pdf), 1, 1, lo.vCalls, lo.fCalls, true⟩
      else
        ⟨(false, "经过 " ++ toString maxRetries ++ " 次尝试，仍然无法修复TEX代码", none),
         1, 1, lo.vCalls, lo.fCalls, true⟩

/-! Embedding of the `run_tex_workflow` entry point (tex_workflow.py, lines
315-349) together with the construction of `TexWorkflow`, whose
`_init_model` (lines 77-94) passes the keyword argument `session_id` to
`TexValidator.__init__` (tex_validator.py, lines 13-14), which does not
accept it. -/

/-- Outcome of a Python call: a value, or an uncaught exception. -/
inductive PyOutcome (α : Type) where
  /-- Normal return. -/
  | ok (a : α)
  /-- An uncaught exception escapes the call. -/
  | exn (msg : String)
  deriving Repr, DecidableEq

/-- The parameter names of `TexValidator.__init__` (tex_validator.py, line 14). -/
def texValidatorInitParams : List String := ["self", "output_dir", "language"]

/-- The keyword arguments `TexWorkflow._init_model` passes to `TexValidator`
(tex_workflow.py, lines 90-94). -/
def texWorkflowValidatorKwargs : List String := ["output_dir", "language", "session_id"]

/-- Python keyword-argument binding: every keyword must name a parameter,
otherwise the call raises `TypeError`. -/
def pyKwCall (params kwargs : List String) : PyOutcome Unit :=
  if kwargs.all params.contains then .ok () else .exn "TypeError"

/-- Constructing `TexWorkflow` runs `_init_model`, which constructs the
internal `TexValidator` with the keyword arguments above; this happens before
`process` and outside any `try` block. -/
def texWorkflowConstruct : PyOutcome Unit :=
  pyKwCall texValidatorInitParams texWorkflowValidatorKwargs

/-- Source `run_tex_workflow`: construct the workflow, then run `process`. -/
def runTexWorkflow (env : WorkflowEnv) (maxRetries : Nat) :
    PyOutcome (Bool × String × Option String) :=
  match texWorkflowConstruct with
  | .exn m => .exn m
  | .ok _ => .ok (process env maxRetries).result

/-! Embedding of `EditorAgent.revise` (interactive_reviser.py, lines 120-219).

The revised file name is the source basename with every `.tex` replaced by
`_revised.tex`; `_compile_tex` invokes the compiler twice (`check=True`, so a
failing first pass skips the second). -/

/-- The apostrophe as a one-character string (for the source's messages). -/
def aposS : String := ⟨[apos]⟩

/-- One entry of `slides_plan` as read by `EditorAgent.revise`. -/
structure RSlide where
  /-- The `slide_number` value. -/
  slide_number : Nat
  /-- The `title` value; `none` models a missing or `None` title. -/
  title : Option String
  deriving Repr, DecidableEq

/-- Observable environment of one `EditorAgent.revise` call. -/
structure ReviseEnv where
  /-- Content of the previous `.tex` file. -/
  texContent : String
  /-- The plan's `slides_plan` list. -/
  slides : List RSlide
  /-- The user feedback text. -/
  feedback : String
  /-- The `new_code` value of the parsed LLM response; `none` models a
  missing key. -/
  llmNewCode : Option String
  /-- The first compiler pass of `_compile_tex` succeeds. -/
  firstPassOk : Bool
  /-- The second compiler pass of `_compile_tex` succeeds. -/
  secondPassOk : Bool

/-- Trace of one `EditorAgent.revise` call. -/
structure ReviseTrace where
  /-- The returned `(success, path, message)` triple. -/
  result : Bool × Option String × String
  /-- Number of compiler subprocess invocations. -/
  compileCalls : Nat
  /-- Paths of files written by the call. -/
  writes : List String

/-- The `<basename>.tex → <basename>_revised.tex` renaming of
`EditorAgent.revise` (line 188). -/
def revisedTexName (b : String) : String := pyReplace b ".tex" "_revised.tex"

/-- Source `EditorAgent.revise`. -/
def revise (env : ReviseEnv) (texPath outputDir : String) : ReviseTrace :=
  match findTargetPageNumber env.feedback.toList with
  | none => ⟨(false, none, "Could not determine the target page number from feedback."), 0, []⟩
  | some pageNumber =>
    if pageNumber ≤ 2 then
      ⟨(false, none, "Editing the title page or table of contents is not yet supported."), 0, []⟩
    else
      let target := pageNumber - 2
      match env.slides.find? (fun s => s.slide_number == target) with
      | none =>
        ⟨(false, none,
          "Could not find slide data for slide number " ++ toString target ++ " in the plan."),
         0, []⟩
      | some s =>
        match s.title with
        | none => ⟨(false, none, "Slide " ++ toString target ++ " has no title in the plan."), 0, []⟩
        | some slideTitle =>
          if slideTitle = "" then
            ⟨(false, none, "Slide " ++ toString target ++ " has no title in the plan."), 0, []⟩
          else
            match findFrameForSlide env.texContent slideTitle with
            | none =>
              ⟨(false, none,
                "Could not find the frame for slide titled " ++ aposS ++ slideTitle ++ aposS
                  ++ " in the TeX file."), 0, []⟩
            | some oldCode =>
              match env.llmNewCode with
              | none => ⟨(false, none, "LLM response is incomplete."), 0, []⟩
              | some newCode =>
                if newCode = "" then ⟨(false, none, "LLM response is incomplete."), 0, []⟩
                else
                  let newContent := pyReplace env.texContent oldCode newCode
                  if newContent = env.texContent then
                    ⟨(false, none, "Failed to replace the code snippet in the TeX file."), 0, []⟩
                  else
                    let revisedPath := outputDir ++ "/" ++ revisedTexName (basename texPath)
                    if env.firstPassOk && env.secondPassOk then
                      ⟨(true, some revisedPath, "Revision and compilation successful."), 2,
                       [revisedPath]⟩
                    else
                      ⟨(false, some revisedPath, "Revision saved, but PDF compilation failed."),
                       if env.firstPassOk then 2 else 1, [revisedPath]⟩

/-! Embedding of the write set of `run_revision_tex_workflow`
(tex_workflow.py, lines 351-520).  Paths are component lists; every file the
function writes — the saved revision source `revised_<ts>.tex`, the image
copies under `images/`, and each attempt's source rewrite, repair rewrite and
output copies performed by `TexValidator.validate` with
`output_dir=session_output_dir` — lives under the fresh session directory
`<output_dir>/revision_<ts>`. -/

/-- Join path components with `/` (as `os.path.join` does here). -/
def joinComponents (p : List String) : String := String.intercalate "/" p

/-- The session directory `os.path.join(output_dir, f"revision_{ts}")`. -/
def sessionDirOf (outputDir : List String) (ts : Nat) : List String :=
  outputDir ++ ["revision_" ++ toString ts]

/-- The file name `revised_<ts>.tex` chosen by
`RevisionTexGenerator.save_revised_tex`. -/
def revisedSaveName (ts : Nat) : String := "revised_" ++ toString ts ++ ".tex"

/-- Observable environment of one `run_revision_tex_workflow` call. -/
structure RevisionEnv where
  /-- The `int(time.time())` timestamp naming the session directory. -/
  ts : Nat
  /-- `generate_revised_tex` returned non-empty code. -/
  genOk : Bool
  /-- `save_revised_tex` returned a path. -/
  saveOk : Bool
  /-- File names of the images copied into the session `images` directory. -/
  copiedImages : List String
  /-- The retry budget. -/
  maxRetries : Nat
  /-- Environment of the validate call of attempt `n`. -/
  vEnv : Nat → ValidateEnv

/-- Write set of the validate/repair loop of `run_revision_tex_workflow`:
per attempt, the source rewrite and output copies of `validate`, plus the
repair rewrite of `tex_path` on failure before the last attempt. -/
def revisionLoopWrites (vres : Nat → ValidateTrace) (sd : List String) (texName : String) :
    Nat → Nat → List (List String)
  | 0, _ => []
  | remaining + 1, attempt =>
    let t := vres attempt
    let vw := (match t.sourceWrite with
               | some _ => [sd ++ [texName]]
               | none => []) ++ t.outputCopies.map (fun n => sd ++ [n])
    if t.result.1 then vw
    else if remaining = 0 then vw
    else vw ++ [sd ++ [texName]] ++ revisionLoopWrites vres sd texName remaining (attempt + 1)

/-- Source `run_revision_tex_workflow`: the list of file paths it writes. -/
def runRevisionWrites (outputDir : List String) (env : RevisionEnv) : List (List String) :=
  let sd := sessionDirOf outputDir env.ts
  let texName := revisedSaveName env.ts
  if !env.genOk then []
  else if !env.saveOk then []
  else
    (sd ++ [texName])
      :: (env.copiedImages.map (fun f => sd ++ ["images", f])
          ++ revisionLoopWrites
               (fun n => validate (joinComponents sd) (joinComponents sd ++ "/" ++ texName)
                 (env.vEnv n))
               sd texName env.maxRetries 1)

/-! Supporting lemmas. -/

/-- The retry loop issues at most one validate call per remaining iteration. -/
theorem attemptLoop_vCalls_le (v : Nat → Bool × String × Option String) :
    ∀ (remaining attempt : Nat) (lastErr : String),
      (attemptLoop v remaining attempt lastErr).vCalls ≤ remaining := by
  intro remaining
  induction remaining with
  | zero => intro attempt lastErr; simp [attemptLoop]
  | succ r ih =>
    intro attempt lastErr
    rcases h : v attempt with ⟨ok, msg, pdf⟩
    cases ok with
    | true => simp [attemptLoop, h]
    | false =>
      by_cases hr : r = 0
      · simp [attemptLoop, h, hr]
      · have := ih (attempt + 1) msg
        simp only [attemptLoop, h, if_neg hr]
        omega

/-- When every validate call fails, the loop exits unsuccessfully. -/
theorem attemptLoop_allFail (v : Nat → Bool × String × Option String)
    (hall : ∀ n, (v n).1 = false) :
    ∀ (remaining attempt : Nat) (lastErr : String),
      (attemptLoop v remaining attempt lastErr).success = false := by
  intro remaining
  induction remaining with
  | zero => intro attempt lastErr; simp [attemptLoop]
  | succ r ih =>
    intro attempt lastErr
    rcases h : v attempt with ⟨ok, msg, pdf⟩
    have hok : ok = false := by have := hall attempt; rw [h] at this; exact this
    subst hok
    by_cases hr : r = 0
    · simp [attemptLoop, h, hr]
    · simp only [attemptLoop, h, if_neg hr]
      exact ih (attempt + 1) msg


/-! Supporting lemmas for the asset-resolution invariant. -/

theorem resolveSlide_files_mono (sid : String) (saveOk : String → Bool) (s : Slide)
    (fs : FileSys) : fs.files ⊆ (resolveSlide sid saveOk s fs).2.files := by
  intro a ha
  unfold resolveSlide
  repeat' split
  all_goals (try simp_all)
  all_goals (repeat' split)
  all_goals simp_all

theorem basename_empty : basename "" = "" := rfl

theorem resolveSlide_spec (sid : String) (saveOk : String → Bool) (s : Slide) (fs : FileSys)
    (hfig : (resolveSlide sid saveOk s fs).1.includes_figure = true)
    (fr : FigureRef) (hfr : (resolveSlide sid saveOk s fs).1.figure_reference = some fr)
    (hbn : basename fr.path ≠ "") :
    ∃ name, fr.path = "images/" ++ name ∧
      (imagesDirOf sid ++ "/" ++ name) ∈ (resolveSlide sid saveOk s fs).2.files := by
  revert hfig hfr
  unfold resolveSlide
  repeat' split
  all_goals intro hfig hfr
  all_goals (try simp_all [basename_empty])
  all_goals (split at hfig <;> try simp_all [basename_empty])
  all_goals (split at hfig <;> try simp_all [basename_empty])
  all_goals (try (split at hfig <;> try simp_all [basename_empty]))
  all_goals
    first
      | (subst hfr; rename_i hconj; exact ⟨_, rfl, hconj.2⟩)
      | (subst hfr; by_cases hd : imagesDirOf sid ∈ fs.dirs <;> simp_all <;>
          exact ⟨_, rfl, Or.inl rfl⟩)

/-- Processing a slide list never removes files. -/
theorem preprocessImages_files_mono (sid : String) (saveOk : String → Bool) :
    ∀ (slides : List Slide) (fs : FileSys),
      fs.files ⊆ (preprocessImages sid saveOk slides fs).2.files := by
  intro slides
  induction slides with
  | nil => intro fs; simp [preprocessImages]
  | cons s ss ih =>
    intro fs
    simp only [preprocessImages]
    exact (resolveSlide_files_mono sid saveOk s fs).trans (ih _)

/-- List-level resolution invariant of `_preprocess_images`. -/
theorem preprocessImages_spec (sid : String) (saveOk : String → Bool) :
    ∀ (slides : List Slide) (fs : FileSys) (s' : Slide),
      s' ∈ (preprocessImages sid saveOk slides fs).1 →
      s'.includes_figure = true →
      ∀ fr, s'.figure_reference = some fr →
      basename fr.path ≠ "" →
      ∃ name, fr.path = "images/" ++ name ∧
        (imagesDirOf sid ++ "/" ++ name) ∈ (preprocessImages sid saveOk slides fs).2.files := by
  intro slides
  induction slides with
  | nil => intro fs s' hmem; simp [preprocessImages] at hmem
  | cons s ss ih =>
    intro fs s' hmem hfig fr hfr hbn
    simp only [preprocessImages] at hmem ⊢
    rcases List.mem_cons.mp hmem with h | h
    · subst h
      obtain ⟨name, hpath, hmem'⟩ := resolveSlide_spec sid saveOk s fs hfig fr hfr hbn
      exact ⟨name, hpath, preprocessImages_files_mono sid saveOk ss _ hmem'⟩
    · exact ih _ s' h hfig fr hfr hbn

/-! Supporting lemmas for the revision no-overwrite guarantee. -/

/-- Characters of `.tex`. -/
def dtexL : Chars := ['.', 't', 'e', 'x']

/-- Characters of `_revised.tex`. -/
def rtexL : Chars := ['_', 'r', 'e', 'v', 'i', 's', 'e', 'd', '.', 't', 'e', 'x']

theorem replaceAllAux_nil (pat rep : Chars) (f : Nat) : replaceAllAux pat rep f [] = [] := by
  cases f <;> simp [replaceAllAux]

theorem isPrefixOf_append_left (p : Chars) :
    ∀ (l m : Chars), p.length ≤ l.length → p.isPrefixOf (l ++ m) = p.isPrefixOf l := by
  induction p with
  | nil => intro l m _; simp [List.isPrefixOf]
  | cons a as ih =>
    intro l m h
    cases l with
    | nil => simp at h
    | cons b bs =>
      simp only [List.cons_append, List.isPrefixOf, List.append_eq]
      rw [ih bs m (by simpa using h)]

theorem replaceAll_tex_length :
    ∀ (f : Nat) (c : Chars), c.length ≤ f →
      c.length ≤ (replaceAllAux dtexL rtexL f c).length := by
  intro f
  induction f with
  | zero =>
    intro c h
    have : c = [] := List.length_eq_zero.mp (Nat.le_antisymm h (Nat.zero_le _))
    subst this; simp
  | succ f ih =>
    intro c h
    cases c with
    | nil => simp [replaceAllAux_nil]
    | cons a rest =>
      simp only [replaceAllAux]
      by_cases hc : (!dtexL.isEmpty && dtexL.isPrefixOf (a :: rest)) = true
      · simp only [hc, if_pos]
        have h1 : (rest.drop (dtexL.length - 1)).length ≤ f := by
          simp only [List.length_drop]
          simp only [List.length_cons] at h
          omega
        have h2 := ih _ h1
        simp only [List.length_append, List.length_drop, List.length_cons] at *
        simp only [dtexL, rtexL, List.length_cons, List.length_nil] at *
        omega
      · simp only [hc, if_neg, Bool.false_eq_true, not_false_iff, if_false]
        have h2 := ih rest (by simp only [List.length_cons] at h; omega)
        simp only [List.length_cons]
        omega

theorem replaceAll_tex_append :
    ∀ (f : Nat) (c : Chars), c.length + 4 ≤ f →
      replaceAllAux dtexL rtexL f (c ++ dtexL) = replaceAllAux dtexL rtexL f c ++ rtexL := by
  intro f
  induction f with
  | zero => intro c h; omega
  | succ f ih =>
    intro c h
    match c with
    | [] =>
      simp [replaceAllAux, replaceAllAux_nil, dtexL, rtexL, List.isPrefixOf]
    | [a] =>
      have e1 := ih [] (by simp at h ⊢; omega)
      rw [List.nil_append, replaceAllAux_nil] at e1
      simp only [dtexL, rtexL] at e1
      simp [replaceAllAux, dtexL, rtexL, replaceAllAux_nil, e1, List.isPrefixOf]
    | [a, b] =>
      have e1 := ih [b] (by simp at h ⊢; omega)
      simp only [List.cons_append, List.nil_append, dtexL, rtexL] at e1
      simp [replaceAllAux, dtexL, rtexL, e1, List.isPrefixOf]
    | [a, b, d] =>
      have e1 := ih [b, d] (by simp at h ⊢; omega)
      simp only [List.cons_append, List.nil_append, dtexL, rtexL] at e1
      simp [replaceAllAux, dtexL, rtexL, e1, List.isPrefixOf]
    | a :: b :: d :: e :: rest =>
      by_cases hp : ('.' = a ∧ 't' = b ∧ 'e' = d ∧ 'x' = e)
      · obtain ⟨ha, hb, hd, he⟩ := hp
        subst ha; subst hb; subst hd; subst he
        have e1 := ih rest (by simp at h ⊢; omega)
        simp only [dtexL, rtexL] at e1
        simp [replaceAllAux, dtexL, rtexL, e1, List.isPrefixOf]
      · have e1 := ih (b :: d :: e :: rest) (by simp at h ⊢; omega)
        have hc1 : (!dtexL.isEmpty && dtexL.isPrefixOf (a :: b :: d :: e :: (rest ++ dtexL)))
            = false := by simp [dtexL, List.isPrefixOf]; tauto
        have hc2 : (!dtexL.isEmpty && dtexL.isPrefixOf (a :: b :: d :: e :: rest)) = false := by
          simp [dtexL, List.isPrefixOf]; tauto
        simp only [List.cons_append] at e1 ⊢
        conv_lhs => rw [replaceAllAux]
        conv_rhs => rw [replaceAllAux]
        rw [hc1, hc2]
        simp [e1]

theorem splitextStemL_append_tex (l : Chars) : splitextStemL (l ++ dtexL) = l := by
  have hc : (l ++ dtexL).contains '.' = true := by
    show (l ++ dtexL).elem '.' = true
    exact List.elem_iff.mpr (by simp [dtexL])
  simp only [splitextStemL, hc, if_pos, dtexL]
  simp [List.reverse_append, List.dropWhile]

theorem string_ne_of_data_length_ne (s t : String) (h : s.data.length ≠ t.data.length) :
    s ≠ t := fun he => h (by rw [he])

theorem revisedTexName_data (c : String) :
    (revisedTexName (c ++ ".tex")).data
      = replaceAllAux dtexL rtexL (c.data.length + 4) c.data ++ rtexL := by
  show (replaceAllL ".tex".toList "_revised.tex".toList (c ++ ".tex").toList) = _
  have h1 : (c ++ ".tex").toList = c.data ++ dtexL := rfl
  have h2 : ".tex".toList = dtexL := rfl
  have h3 : "_revised.tex".toList = rtexL := rfl
  rw [replaceAllL, h1, h2, h3]
  have h4 : (c.data ++ dtexL).length = c.data.length + 4 := by simp [dtexL]
  rw [h4]
  exact replaceAll_tex_append (c.data.length + 4) c.data (by omega)

/-- The three name-distinctness facts behind the localized-revision
no-overwrite guarantee: the revised source name differs from the previous
source name, and both the revised source name and its compiled output name
differ from the previous artifact name. -/
theorem revisedNames_distinct (c : String) :
    revisedTexName (c ++ ".tex") ≠ c ++ ".tex"
    ∧ revisedTexName (c ++ ".tex") ≠ splitextStem (c ++ ".tex") ++ ".pdf"
    ∧ splitextStem (revisedTexName (c ++ ".tex")) ++ ".pdf"
        ≠ splitextStem (c ++ ".tex") ++ ".pdf" := by
  have hdata := revisedTexName_data c
  have hrt : rtexL.length = 12 := rfl
  have hrep := replaceAll_tex_length (c.data.length + 4) c.data (by omega)
  have hlen : c.data.length + 12 ≤ (revisedTexName (c ++ ".tex")).data.length := by
    rw [hdata, List.length_append, hrt]
    omega
  have hstem : (splitextStem (c ++ ".tex")).data = c.data := by
    show splitextStemL (c ++ ".tex").toList = c.data
    have h1 : (c ++ ".tex").toList = c.data ++ dtexL := rfl
    rw [h1]
    exact splitextStemL_append_tex c.data
  have hstemR : (splitextStem (revisedTexName (c ++ ".tex"))).data
      = replaceAllAux dtexL rtexL (c.data.length + 4) c.data ++ "_revised".toList := by
    show splitextStemL (revisedTexName (c ++ ".tex")).toList = _
    have h5 : (revisedTexName (c ++ ".tex")).toList
        = (replaceAllAux dtexL rtexL (c.data.length + 4) c.data ++ "_revised".toList)
           ++ dtexL := by
      show (revisedTexName (c ++ ".tex")).data = _
      rw [hdata]
      simp [rtexL, dtexL]
    rw [h5]
    exact splitextStemL_append_tex _
  have hb : (c ++ ".tex").data.length = c.data.length + 4 := by
    show (c.data ++ ".tex".data).length = _
    rw [List.length_append]
    rfl
  have hpdfOld : (splitextStem (c ++ ".tex") ++ ".pdf").data.length = c.data.length + 4 := by
    show ((splitextStem (c ++ ".tex")).data ++ ".pdf".data).length = _
    rw [hstem, List.length_append]
    rfl
  refine ⟨?_, ?_, ?_⟩
  · exact string_ne_of_data_length_ne _ _ (by omega)
  · exact string_ne_of_data_length_ne _ _ (by omega)
  · apply string_ne_of_data_length_ne
    have h6 : (splitextStem (revisedTexName (c ++ ".tex")) ++ ".pdf").data.length
        = (splitextStem (revisedTexName (c ++ ".tex"))).data.length + 4 := by
      show ((splitextStem (revisedTexName (c ++ ".tex"))).data ++ ".pdf".data).length = _
      rw [List.length_append]
      rfl
    have h8 : c.data.length + 8 ≤ (splitextStem (revisedTexName (c ++ ".tex"))).data.length := by
      rw [hstemR, List.length_append]
      have h9 : ("_revised".toList).length = 8 := rfl
      omega
    omega


/-- Every path written by the revision validate/repair loop lies under the
session directory. -/
theorem revisionLoopWrites_prefixed (vres : Nat → ValidateTrace) (sd : List String)
    (texName : String) :
    ∀ (remaining attempt : Nat) (w : List String),
      w ∈ revisionLoopWrites vres sd texName remaining attempt → sd <+: w := by
  intro remaining
  induction remaining with
  | zero => intro attempt w hw; simp [revisionLoopWrites] at hw
  | succ r ih =>
    intro attempt w hw
    have hvw : ∀ u, u ∈ ((match (vres attempt).sourceWrite with
        | some _ => [sd ++ [texName]]
        | none => ([] : List (List String)))
          ++ (vres attempt).outputCopies.map (fun n => sd ++ [n])) → sd <+: u := by
      intro u hu
      rcases List.mem_append.mp hu with h | h
      · rcases hsw : (vres attempt).sourceWrite with _ | c
        · rw [hsw] at h; simp at h
        · rw [hsw] at h; simp at h; exact h ▸ ⟨[texName], rfl⟩
      · obtain ⟨n, _, rfl⟩ := List.mem_map.mp h
        exact ⟨[n], rfl⟩
    simp only [revisionLoopWrites] at hw
    split at hw
    · exact hvw w hw
    · split at hw
      · exact hvw w hw
      · rcases List.mem_append.mp hw with h | h
        · rcases List.mem_append.mp h with h' | h'
          · exact hvw w h'
          · simp at h'; exact h' ▸ ⟨[texName], rfl⟩
        · exact ih (attempt + 1) w h

/-- Every path written by `run_revision_tex_workflow` lies under its fresh
session directory `<output_dir>/revision_<ts>`. -/
theorem runRevisionWrites_prefixed (outputDir : List String) (env : RevisionEnv) :
    ∀ w ∈ runRevisionWrites outputDir env, sessionDirOf outputDir env.ts <+: w := by
  intro w hw
  simp only [runRevisionWrites] at hw
  split at hw
  · simp at hw
  · split at hw
    · simp at hw
    · rcases List.mem_cons.mp hw with h | h
      · exact h ▸ ⟨_, rfl⟩
      · rcases List.mem_append.mp h with h' | h'
        · obtain ⟨n, _, rfl⟩ := List.mem_map.mp h'
          exact ⟨_, rfl⟩
        · exact revisionLoopWrites_prefixed _ _ _ _ 1 w h'


/-! The claims. -/

/-- C9: the error classifier `TexValidator._extract_error_message` is a pure,
deterministic function of the raw log text: identical log strings always
yield an identical extracted classification/message.  In this embedding the
classifier is the pure function `extractErrorMessage` of the log text alone —
it reads no mutable state and no environment — and equal inputs give equal
outputs. -/
theorem c9_classifier_deterministic (log1 log2 : String) (h : log1 = log2) :
    extractErrorMessage log1 = extractErrorMessage log2 := by rw [h]

/-- Witness for C9 at a concrete log, also evaluating the classifier. -/
theorem c9_classifier_deterministic_witness :
    extractErrorMessage "! LaTeX Error: boom\nrest"
      = extractErrorMessage "! LaTeX Error: boom\nrest"
    ∧ extractErrorMessage "! LaTeX Error: boom\nrest" = "boom" :=
  ⟨c9_classifier_deterministic "! LaTeX Error: boom\nrest" "! LaTeX Error: boom\nrest" rfl,
   by decide⟩

/-- C8 (code bug): `TexWorkflow._init_model` passes the keyword argument
`session_id` to `TexValidator.__init__`, which only accepts `output_dir` and
`language`; the construction therefore raises `TypeError` before `process`
runs and outside every `try` block, so `run_tex_workflow` always escapes with
an uncaught exception instead of returning a structured
`(success, message, path)` triple. -/
theorem c8_entry_point_crashes :
    texWorkflowConstruct = PyOutcome.exn "TypeError"
    ∧ ∀ (env : WorkflowEnv) (maxRetries : Nat),
        runTexWorkflow env maxRetries = PyOutcome.exn "TypeError" := by
  have h : texWorkflowConstruct = PyOutcome.exn "TypeError" := by decide
  exact ⟨h, fun env mr => by simp [runTexWorkflow, h]⟩


/-- Workflow environment refuting claim C1 as stated: the presentation plan
fails to load (`_load_presentation_plan` returns the falsy `{}`). -/
def c1Env : WorkflowEnv :=
  { planLoad := none
    sessionId := "s"
    saveOk := fun _ => true
    fs := ⟨[], []⟩
    genEnv := { planLoaded := true, llmAvailable := true, llmOutput := some "x" }
    validateRes := fun _ => (false, "e", none) }

/-- C1, counterexample to the claim as stated: in a run of
`TexWorkflow.process` with `max_retries = 5 ≥ 1` whose plan fails to load,
the synthesis step and the asset-resolution step execute zero times, not
exactly once. -/
theorem c1_counterexample :
    (process c1Env 5).generateCalls = 0 ∧ (process c1Env 5).preprocessCalls = 0
    ∧ (process c1Env 5).result = (false, "无法加载演示计划", none) := by decide

/-- C1 (amended): for every run of `TexWorkflow.process` with
`max_retries ≥ 1` in which the presentation plan loads, the number of
`TexValidator.validate` compile attempts is at most `max_retries`, and
`_preprocess_images` and `generate_tex` each execute exactly once, outside
the retry count; a run whose plan fails to load aborts before both steps. -/
theorem c1_retry_budget (env : WorkflowEnv) (maxRetries : Nat) (hmr : 1 ≤ maxRetries)
    (hplan : env.planLoad ≠ none) :
    (process env maxRetries).validateCalls ≤ maxRetries
    ∧ (process env maxRetries).preprocessCalls = 1
    ∧ (process env maxRetries).generateCalls = 1 := by
  rcases hplan' : env.planLoad with _ | slides
  · exact absurd hplan' hplan
  · simp only [process, hplan']
    by_cases hg : generateTex env.genEnv = ""
    · simp [hg]
    · simp only [if_neg hg]
      by_cases hs : (attemptLoop env.validateRes maxRetries 1 "").success = true <;>
        simp [hs, attemptLoop_vCalls_le]

/-- Workflow environment for the C1 witness: three failing attempts. -/
def c1wEnv : WorkflowEnv :=
  { planLoad := some [⟨false, none⟩]
    sessionId := "s"
    saveOk := fun _ => true
    fs := ⟨[], []⟩
    genEnv := { planLoaded := true, llmAvailable := true, llmOutput := some "code" }
    validateRes := fun _ => (false, "err", none) }

/-- Witness for C1 (amended) at a concrete environment. -/
theorem c1_retry_budget_witness :
    (process c1wEnv 3).validateCalls ≤ 3
    ∧ (process c1wEnv 3).preprocessCalls = 1
    ∧ (process c1wEnv 3).generateCalls = 1 :=
  c1_retry_budget c1wEnv 3 (by decide) (by decide)

/-- Workflow environment refuting the message format of claim C3: every
compile attempt fails with the classified error `boom`. -/
def c3Env : WorkflowEnv :=
  { planLoad := some [⟨false, none⟩]
    sessionId := "s"
    saveOk := fun _ => true
    fs := ⟨[], []⟩
    genEnv := { planLoaded := true, llmAvailable := true, llmOutput := some "code" }
    validateRes := fun _ => (false, "boom", none) }

/-- C3, counterexample to the claim as stated: when the retry budget is
exhausted, `output.tex` does remain on disk and `success = false`, but the
returned message is the fixed retry-exhaustion notice, which contains
neither the source file's path (`output.tex`) nor the last compile error
(`boom`). -/
theorem c3_counterexample :
    (process c3Env 3).result.1 = false
    ∧ (process c3Env 3).result.2.1 = "经过 3 次尝试，仍然无法修复TEX代码"
    ∧ pyContains (process c3Env 3).result.2.1 "output.tex" = false
    ∧ pyContains (process c3Env 3).result.2.1 "boom" = false
    ∧ (process c3Env 3).outputTexWritten = true := by decide

/-- C3 (amended): whenever `TexWorkflow.process` exhausts its retry budget
without a successful compile, the last-written `output.tex` still exists on
disk and the result has `success = false`, but the message is the fixed
string `经过 <max_retries> 次尝试，仍然无法修复TEX代码`, which reports
neither the source path nor the last compile error. -/
theorem c3_exhausted_message (env : WorkflowEnv) (maxRetries : Nat)
    (hplan : env.planLoad ≠ none)
    (hgen : generateTex env.genEnv ≠ "")
    (hfail : ∀ n, (env.validateRes n).1 = false) :
    (process env maxRetries).result.1 = false
    ∧ (process env maxRetries).result.2.1
        = "经过 " ++ toString maxRetries ++ " 次尝试，仍然无法修复TEX代码"
    ∧ (process env maxRetries).outputTexWritten = true := by
  rcases hplan' : env.planLoad with _ | slides
  · exact absurd hplan' hplan
  simp only [process, hplan', if_neg hgen]
  have hs := attemptLoop_allFail env.validateRes hfail maxRetries 1 ""
  simp [hs]

/-- Witness for C3 (amended) at a concrete environment. -/
theorem c3_exhausted_message_witness :
    (process c3Env 4).result.1 = false
    ∧ (process c3Env 4).result.2.1 = "经过 " ++ toString 4 ++ " 次尝试，仍然无法修复TEX代码"
    ∧ (process c3Env 4).outputTexWritten = true :=
  c3_exhausted_message c3Env 4 (by decide) (by decide) (fun _ => rfl)


/-- Workflow environment refuting claim C4 as stated: the LLM returns
non-empty text without any document markers, and every compile fails. -/
def c4Env : WorkflowEnv :=
  { planLoad := some [⟨false, none⟩]
    sessionId := "s"
    saveOk := fun _ => true
    fs := ⟨[], []⟩
    genEnv := { planLoaded := true, llmAvailable := true, llmOutput := some "Hello slides" }
    validateRes := fun _ => (false, "err", none) }

/-- C4, counterexample to the claim as stated: `generate_tex` performs no
structural-marker check — an output lacking the document-start marker is
returned as-is and the workflow proceeds to issue compile attempts (three
here) instead of failing with no compile attempt. -/
theorem c4_counterexample :
    generateTex c4Env.genEnv = "Hello slides"
    ∧ pyContains (generateTex c4Env.genEnv) "\\begin\x7bdocument\x7d" = false
    ∧ (process c4Env 3).validateCalls = 3 := by decide

/-- C4 (amended): the synthesizer's output is stripped of code-fence
wrapping, but there is no structural-marker check; only an output that is
empty after cleaning (or a missing plan/model or a generation exception,
all yielding `""`) makes the run fail immediately with `TEX代码生成失败`,
issuing no compile attempt and no repair call.  Non-empty output lacking
the document markers is passed on to the compiler. -/
theorem c4_generation_failure (env : WorkflowEnv) (maxRetries : Nat)
    (hplan : env.planLoad ≠ none)
    (hgen : generateTex env.genEnv = "") :
    (process env maxRetries).result = (false, "TEX代码生成失败", none)
    ∧ (process env maxRetries).validateCalls = 0
    ∧ (process env maxRetries).fixCalls = 0 := by
  rcases hplan' : env.planLoad with _ | slides
  · exact absurd hplan' hplan
  simp [process, hplan', hgen]

/-- Workflow environment for the C4 witness: the LLM answer is an empty
fenced block, which cleans to the empty string. -/
def c4wEnv : WorkflowEnv :=
  { planLoad := some [⟨false, none⟩]
    sessionId := "s"
    saveOk := fun _ => true
    fs := ⟨[], []⟩
    genEnv :=
      { planLoaded := true
        llmAvailable := true
        llmOutput := some ("\x60\x60\x60latex\n\x60\x60\x60") }
    validateRes := fun _ => (false, "err", none) }

/-- Witness for C4 (amended) at a concrete environment. -/
theorem c4_generation_failure_witness :
    (process c4wEnv 3).result = (false, "TEX代码生成失败", none)
    ∧ (process c4wEnv 3).validateCalls = 0
    ∧ (process c4wEnv 3).fixCalls = 0 :=
  c4_generation_failure c4wEnv 3 (by decide) (by decide)


/-- Validator environment refuting claim C2 as stated: the compiler exits
with code zero and the compiled PDF and log are present. -/
def c2Env : ValidateEnv :=
  { texExists := true
    texContent := "body"
    tempImages := []
    sourceDirImages := []
    absFiles := []
    timedOut := false
    returncode := 0
    pdfGenerated := true
    logGenerated := true
    stdout := "ok" }

/-- C2, counterexample to the claim as stated: on exit code zero with the
compiled PDF present, `TexValidator.validate` invokes the compiler exactly
once — it is never re-invoked for additional passes — and the PDF and log
are copied after that single pass. -/
theorem c2_counterexample :
    (validate "out" "out/output.tex" c2Env).compilerCalls = 1
    ∧ (validate "out" "out/output.tex" c2Env).result = (true, "编译成功", some "out/output.pdf")
    ∧ (validate "out" "out/output.tex" c2Env).outputCopies = ["output.pdf", "output.log"] := by
  decide

/-- C2 (amended): for every `TexValidator.validate` call where the compiler
subprocess exits with code zero and the compiled PDF is present in the
isolated working directory, the compiler is invoked exactly once (no
multi-pass compilation), and after that single pass the compiled file (and
the raw log when present) are copied to the persistent output location and
Success is reported with the output path. -/
theorem c2_single_pass (outputDir texFile : String) (env : ValidateEnv)
    (hex : env.texExists = true) (hto : env.timedOut = false)
    (hrc : env.returncode = 0) (hpdf : env.pdfGenerated = true) :
    (validate outputDir texFile env).compilerCalls = 1
    ∧ (validate outputDir texFile env).result
        = (true, "编译成功", some (outputDir ++ "/" ++ (splitextStem (basename texFile) ++ ".pdf")))
    ∧ (splitextStem (basename texFile) ++ ".pdf") ∈ (validate outputDir texFile env).outputCopies
    ∧ (env.logGenerated = true →
        (splitextStem (basename texFile) ++ ".log")
          ∈ (validate outputDir texFile env).outputCopies) := by
  by_cases hlog : env.logGenerated = true <;>
    simp [validate, hex, hto, hrc, hpdf, hlog]

/-- Witness for C2 (amended) at a concrete environment. -/
theorem c2_single_pass_witness :
    (validate "out" "out/output.tex" c2Env).compilerCalls = 1
    ∧ (validate "out" "out/output.tex" c2Env).result
        = (true, "编译成功", some ("out" ++ "/" ++ (splitextStem (basename "out/output.tex") ++ ".pdf")))
    ∧ (splitextStem (basename "out/output.tex") ++ ".pdf")
        ∈ (validate "out" "out/output.tex" c2Env).outputCopies
    ∧ (c2Env.logGenerated = true →
        (splitextStem (basename "out/output.tex") ++ ".log")
          ∈ (validate "out" "out/output.tex" c2Env).outputCopies) :=
  c2_single_pass "out" "out/output.tex" c2Env rfl rfl rfl rfl

/-- Validator environment refuting claim C10 as stated: one referenced image
exists at its literal absolute path, another is missing everywhere. -/
def c10Env : ValidateEnv :=
  { texExists := true
    texContent := "t \\includegraphics[width=5cm]\x7b/abs/found.png\x7d\n\\includegraphics[scale=1]\x7bmissing.png\x7d e"
    tempImages := []
    sourceDirImages := []
    absFiles := ["/abs/found.png"]
    timedOut := false
    returncode := 1
    pdfGenerated := false
    logGenerated := true
    stdout := "! LaTeX Error: boom\n" }

/-- C10, counterexample to the claim as stated: `validate` does rewrite the
original source file in place even though compilation fails, but when some
referenced image is missing it does not replace each `\includegraphics`
argument with `images/<basename>` — the found image's absolute path argument
is left unchanged; only the missing image's path is replaced by a
placeholder path. -/
theorem c10_counterexample :
    (validate "out" "out/output.tex" c10Env).result.1 = false
    ∧ (validate "out" "out/output.tex" c10Env).sourceWrite
        = some (processImageReferences c10Env)
    ∧ pyContains (processImageReferences c10Env) "\x7b/abs/found.png\x7d" = true
    ∧ pyContains (processImageReferences c10Env) "\x7bimages/found.png\x7d" = false
    ∧ pyContains (processImageReferences c10Env) "\x7bimages/placeholder_missing.png.png\x7d"
        = true := by decide

/-- C10 (amended): whenever the source file exists, `TexValidator.validate`
rewrites it in place before compiling (the temporary working copy is made
first and compiled unmodified): the written content is
`processImageReferences` of the original — with missing images, exactly the
missing braced arguments are replaced by placeholder paths; with none
missing, each argument not already under `images/` is replaced by
`images/<basename>` — and this write happens on failing runs just as on
successful ones. -/
theorem c10_source_mutation (outputDir texFile : String) (env : ValidateEnv)
    (hex : env.texExists = true) :
    (validate outputDir texFile env).sourceWrite = some (processImageReferences env) := by
  by_cases ht : env.timedOut = true <;>
    by_cases hrc : env.returncode = 0 <;>
      by_cases hp : env.pdfGenerated = true <;>
        simp [validate, hex, ht, hrc, hp]

/-- Witness for C10 (amended) at a concrete environment (a failing compile). -/
theorem c10_source_mutation_witness :
    (validate "out" "out/output.tex" c10Env).sourceWrite
      = some (processImageReferences c10Env) :=
  c10_source_mutation "out" "out/output.tex" c10Env rfl


/-- Slides refuting claim C5 as stated: a figured slide with no reference,
one with an empty path, and one whose path has an empty basename. -/
def c5Slides : List Slide :=
  [⟨true, none⟩, ⟨true, some ⟨""⟩⟩, ⟨true, some ⟨"figs/"⟩⟩]

/-- File system for the C5 counterexample: the session images directory
exists and holds no files. -/
def c5Fs : FileSys := ⟨[], [imagesDirOf "sess"]⟩

/-- C5, counterexample to the claim as stated: `_preprocess_images` leaves a
slide with `includes_figure = true` and a missing (or empty, or
empty-basename) figure reference completely untouched — after resolution the
first slide still has `includes_figure = true` with no figure reference at
all, so not every figured slide ends up with a path to an existing file. -/
theorem c5_counterexample :
    (preprocessImages "sess" (fun _ => true) c5Slides c5Fs).1 = c5Slides
    ∧ c5Slides.head? = some ⟨true, none⟩
    ∧ (preprocessImages "sess" (fun _ => true) c5Slides c5Fs).2 = c5Fs := by decide

/-- C5 (amended): after `_preprocess_images`, every slide with
`includes_figure = true` that carries a figure reference whose path has a
non-empty basename holds a path `images/<name>` such that the file
`output/images/<session>/<name>` exists on disk — the real asset found in
the run's image directory, or the synthesized placeholder; slides with a
missing or empty reference, an empty path, or an empty final path component
are left unresolved, and a slide whose placeholder cannot be written has its
figure dropped instead. -/
theorem c5_resolution (sessionId : String) (saveOk : String → Bool)
    (slides : List Slide) (fs : FileSys) (s' : Slide)
    (hmem : s' ∈ (preprocessImages sessionId saveOk slides fs).1)
    (hfig : s'.includes_figure = true)
    (fr : FigureRef) (hfr : s'.figure_reference = some fr)
    (hbn : basename fr.path ≠ "") :
    ∃ name, fr.path = "images/" ++ name ∧
      (imagesDirOf sessionId ++ "/" ++ name)
        ∈ (preprocessImages sessionId saveOk slides fs).2.files := by
  refine preprocessImages_spec sessionId saveOk slides fs s' hmem hfig fr ?_ hbn
  exact hfr

/-- Witness for C5 (amended): a single slide whose referenced image exists in
the session images directory is resolved to `images/a.png`. -/
theorem c5_resolution_witness :
    ∃ name, ("images/a.png" : String) = "images/" ++ name ∧
      (imagesDirOf "sess" ++ "/" ++ name)
        ∈ (preprocessImages "sess" (fun _ => true)
            [⟨true, some ⟨"figs/a.png"⟩⟩]
            ⟨[imagesDirOf "sess" ++ "/a.png"], [imagesDirOf "sess"]⟩).2.files :=
  c5_resolution "sess" (fun _ => true) [⟨true, some ⟨"figs/a.png"⟩⟩]
    ⟨[imagesDirOf "sess" ++ "/a.png"], [imagesDirOf "sess"]⟩
    ⟨true, some ⟨"images/a.png"⟩⟩ (by decide) (by decide) ⟨"images/a.png"⟩ rfl (by decide)


/-- The target-location failure conditions of `EditorAgent.revise` named by
claim C6, stated over the embedded helpers: no parsable page number, a page
number of at most 2 (title page / table of contents), a mapped slide or its
title missing from the plan, the titled frame block absent from the previous
source, or the located block's replacement being a no-op substitution. -/
def locateFailure (env : ReviseEnv) : Prop :=
  findTargetPageNumber env.feedback.toList = none
  ∨ (∃ n, findTargetPageNumber env.feedback.toList = some n ∧ n ≤ 2)
  ∨ (∃ n, findTargetPageNumber env.feedback.toList = some n ∧ 2 < n
      ∧ env.slides.find? (fun s => s.slide_number == n - 2) = none)
  ∨ (∃ n s, findTargetPageNumber env.feedback.toList = some n ∧ 2 < n
      ∧ env.slides.find? (fun s => s.slide_number == n - 2) = some s
      ∧ (s.title = none ∨ s.title = some ""))
  ∨ (∃ n s t, findTargetPageNumber env.feedback.toList = some n ∧ 2 < n
      ∧ env.slides.find? (fun s => s.slide_number == n - 2) = some s
      ∧ s.title = some t ∧ t ≠ ""
      ∧ findFrameForSlide env.texContent t = none)
  ∨ (∃ n s t old nc, findTargetPageNumber env.feedback.toList = some n ∧ 2 < n
      ∧ env.slides.find? (fun s => s.slide_number == n - 2) = some s
      ∧ s.title = some t ∧ t ≠ ""
      ∧ findFrameForSlide env.texContent t = some old
      ∧ env.llmNewCode = some nc ∧ nc ≠ ""
      ∧ pyReplace env.texContent old nc = env.texContent)

/-- C6: for every localized-revision request handled by `EditorAgent.revise`,
if no target page number can be parsed from the feedback, or the parsed page
number is at most 2, or the mapped slide (page minus 2) or its titled frame
block cannot be located in the plan or previous source, or the located
block's exact text cannot be substituted, then the call returns a failure
result immediately with an explicit message, no compiler invocation occurs,
and nothing is written — the previous artifact is untouched. -/
theorem c6_revise_fails_without_compiling (env : ReviseEnv) (texPath outputDir : String)
    (h : locateFailure env) :
    (revise env texPath outputDir).result.1 = false
    ∧ (revise env texPath outputDir).result.2.1 = none
    ∧ (revise env texPath outputDir).result.2.2 ≠ ""
    ∧ (revise env texPath outputDir).compileCalls = 0
    ∧ (revise env texPath outputDir).writes = [] := by
  rcases h with h | ⟨n, hn, hle⟩ | ⟨n, hn, hgt, hs⟩ | ⟨n, s, hn, hgt, hs, ht⟩
    | ⟨n, s, t, hn, hgt, hs, ht, htne, hf⟩
    | ⟨n, s, t, old, nc, hn, hgt, hs, ht, htne, hf, hnc, hncne, hrep⟩
  · have h2 : findTargetPageNumber env.feedback.data = none := h
    simp [revise, h2]
  · have h2 : findTargetPageNumber env.feedback.data = some n := hn
    simp [revise, h2, hle]
  · have h2 : findTargetPageNumber env.feedback.data = some n := hn
    simp [revise, h2, hs, Nat.not_le.mpr hgt]
    apply string_ne_of_data_length_ne
    simp [List.length_append]
  · have h2 : findTargetPageNumber env.feedback.data = some n := hn
    rcases ht with ht | ht <;>
      · simp [revise, h2, hs, ht, Nat.not_le.mpr hgt]
        apply string_ne_of_data_length_ne
        simp [List.length_append]
  · have h2 : findTargetPageNumber env.feedback.data = some n := hn
    simp [revise, h2, hs, ht, htne, hf, Nat.not_le.mpr hgt]
    apply string_ne_of_data_length_ne
    simp [List.length_append]
  · have h2 : findTargetPageNumber env.feedback.data = some n := hn
    simp [revise, h2, hs, ht, htne, hf, hnc, hncne, hrep, Nat.not_le.mpr hgt]


/-- Revision-request environment for the C6 witness: feedback with no page
number. -/
def c6wEnv : ReviseEnv :=
  { texContent := "\\begin\x7bframe\x7d\\frametitle\x7bT\x7dbody\\end\x7bframe\x7d"
    slides := [⟨1, some "T"⟩]
    feedback := "make it nicer"
    llmNewCode := some "NEW"
    firstPassOk := true
    secondPassOk := true }

/-- Witness for C6 at a concrete request whose feedback has no page number. -/
theorem c6_revise_fails_without_compiling_witness :
    (revise c6wEnv "d/output.tex" "d").result.1 = false
    ∧ (revise c6wEnv "d/output.tex" "d").result.2.1 = none
    ∧ (revise c6wEnv "d/output.tex" "d").result.2.2 ≠ ""
    ∧ (revise c6wEnv "d/output.tex" "d").compileCalls = 0
    ∧ (revise c6wEnv "d/output.tex" "d").writes = [] :=
  c6_revise_fails_without_compiling c6wEnv "d/output.tex" "d" (Or.inl (by decide))

/-- C7: neither revision strategy can delete, truncate or overwrite the
previously successful artifact.  For the localized-patch strategy
(`EditorAgent.revise`), the revised source name and its compiled output name
are distinct from the previous source name and the previous artifact name,
for every `.tex` source — the new files live at their own sibling paths.
For the whole-document strategy (`run_revision_tex_workflow`), every path it
writes lies under the fresh session directory `<output_dir>/revision_<ts>`,
so any previous artifact outside that directory is untouched, whether or not
the new compile succeeds. -/
theorem c7_revision_never_overwrites (c : String) (outputDir : List String)
    (env : RevisionEnv) (prev : List String)
    (hprev : ¬ sessionDirOf outputDir env.ts <+: prev) :
    (revisedTexName (c ++ ".tex") ≠ c ++ ".tex"
     ∧ revisedTexName (c ++ ".tex") ≠ splitextStem (c ++ ".tex") ++ ".pdf"
     ∧ splitextStem (revisedTexName (c ++ ".tex")) ++ ".pdf"
         ≠ splitextStem (c ++ ".tex") ++ ".pdf")
    ∧ prev ∉ runRevisionWrites outputDir env :=
  ⟨revisedNames_distinct c,
   fun hmem => hprev (runRevisionWrites_prefixed outputDir env prev hmem)⟩

/-- Revision-workflow environment for the C7 witness. -/
def c7wEnv : RevisionEnv :=
  { ts := 7
    genOk := true
    saveOk := true
    copiedImages := ["a.png"]
    maxRetries := 3
    vEnv := fun _ =>
      { texExists := true
        texContent := "body"
        tempImages := []
        sourceDirImages := []
        absFiles := []
        timedOut := false
        returncode := 1
        pdfGenerated := false
        logGenerated := true
        stdout := "! LaTeX Error: boom\n" } }

/-- Witness for C7 at a concrete source name, session and previous artifact. -/
theorem c7_revision_never_overwrites_witness :
    (revisedTexName ("output" ++ ".tex") ≠ "output" ++ ".tex"
     ∧ revisedTexName ("output" ++ ".tex") ≠ splitextStem ("output" ++ ".tex") ++ ".pdf"
     ∧ splitextStem (revisedTexName ("output" ++ ".tex")) ++ ".pdf"
         ≠ splitextStem ("output" ++ ".tex") ++ ".pdf")
    ∧ ["out", "prev.pdf"] ∉ runRevisionWrites ["out"] c7wEnv :=
  c7_revision_never_overwrites "output" ["out"] c7wEnv ["out", "prev.pdf"] (by decide)

end PaperToBeamer
